import Mathlib

/-!
Shallow embedding of `src/edificato.py`: the ogr2osm translation rules for
DBSN building data of the Umbria region.  The only decision logic of the
repository is the method `EdifTranslation.filter_tags`, which turns one
attribute record (a Python dict of coded string fields) into an OSM tag
mapping, or into no output when the host passes no attributes.

Modelling choices:
* A Python dict value is `Option String` (`none` models Python `None`);
  an attribute record is an association list `Attrs`, so that a missing
  key is representable and raises `PyErr.keyError` on lookup, exactly as
  `attrs["field"]` does in Python.
* The mutable `tags` dict is `Tags`, an association list with the Python
  dict update semantics: `setTag` replaces the value in place when the key
  exists and appends otherwise; `getTag` is dict lookup.
* `filter_tags` threads the tag accumulator through the five stages in
  source order.  The stages that can raise (`str.lower(None)` raises
  TypeError; a dict read of a missing key raises KeyError) return
  `Except PyErr`; the others are pure.
* Python `match` on string literals is equality dispatch in source order,
  embedded as an if-chain; `case "a" | "b"` becomes a disjunction.
-/

/-- Exceptions that the Python code can raise while classifying. -/
inductive PyErr where
  | keyError (k : String)
  | typeError
  deriving DecidableEq, Repr

/-- An attribute record: a dict from field name to nullable string. -/
abbrev Attrs := List (String × Option String)

/-- The output tag mapping. -/
abbrev Tags := List (String × String)

/-- Python dict assignment `tags[k] = v`: update in place when the key is
present, append otherwise. -/
def setTag (t : Tags) (k v : String) : Tags :=
  match t with
  | [] => [(k, v)]
  | (k', v') :: rest => if k' = k then (k, v) :: rest else (k', v') :: setTag rest k v

/-- Python dict read `tags[k]` as an `Option` (callers that raise on a
missing key test for `none`). -/
def getTag (t : Tags) (k : String) : Option String :=
  match t with
  | [] => none
  | (k', v) :: rest => if k' = k then some v else getTag rest k

/-- Python dict read `attrs[k]` on the attribute record: raises KeyError
when the key is missing. -/
def lookupAttr (a : Attrs) (k : String) : Except PyErr (Option String) :=
  match a with
  | [] => Except.error (PyErr.keyError k)
  | (k', v) :: rest => if k' = k then Except.ok v else lookupAttr rest k

/-- Python `str.lower`, embedded per character (`Char.toLower` lowercases
the ASCII range, which covers the case variants of the `"unk"` sentinel). -/
def pyLower (s : String) : String :=
  String.mk (s.data.map Char.toLower)

/-- Lines 65-68: the name normalizer.  `str.lower(None)` raises TypeError;
otherwise `name` is set to the field value, or to `""` when the lowercase
form is the sentinel `"unk"`. -/
def step_name (nome : Option String) (t : Tags) : Except PyErr Tags :=
  match nome with
  | none => Except.error PyErr.typeError
  | some s =>
      Except.ok (if pyLower s ≠ "unk" then setTag t "name" s else setTag t "name" "")

/-- Lines 70-73: the underground annotator. -/
def step_sot (sot : Option String) (t : Tags) : Tags :=
  if sot = some "02" then
    setTag (setTag (setTag t "location" "underground") "building:levels" "0")
      "fixme:buildind" "Check location, if not verifiable remove geometry"
  else t

/-- Lines 75-106: the structural classifier, `match attrs["edifc_ty"]`. -/
def step_ty (ty : Option String) (t : Tags) : Tags :=
  if ty = some "04" then setTag t "building" "house"
  else if ty = some "07" then
    setTag (setTag (setTag t "building" "tower") "man_made" "tower") "tower:type" "bell_tower"
  else if ty = some "10" then setTag t "building" "castle"
  else if ty = some "11" then setTag t "building" "church"
  else if ty = some "14" then setTag t "building" "hangar"
  else if ty = some "16" then setTag t "building" "temple"
  else if ty = some "19" then setTag t "building" "sports_hall"
  else if ty = some "21" then setTag t "building" "stadium"
  else if ty = some "22" then setTag t "building" "cathedral"
  else if ty = some "23" then setTag (setTag t "building" "roof") "layer" "1"
  else if ty = some "24" then setTag (setTag t "building" "yes") "defensive_works" "bastion"
  else if ty = some "25" then setTag (setTag t "building" "yes") "historic" "citywalls"
  else setTag t "building" "yes"

/-- Lines 108-198: the use classifier, `match attrs["edifc_uso"]`.  A code
with no case leaves the tags untouched (Python match without a wildcard). -/
def step_uso (uso : Option String) (t : Tags) : Tags :=
  if uso = some "02" then setTag t "building" "office"
  else if uso = some "0201" then setTag t "amenity" "townhall"
  else if uso = some "0203" then setTag (setTag t "office" "government") "admin_level" "4"
  else if uso = some "030101" then setTag t "amenity" "social_facility"
  else if uso = some "030102" then setTag (setTag t "amenity" "hospital") "healthcare" "hospital"
  else if uso = some "030103" then setTag (setTag t "amenity" "clinic") "healthcare" "clinic"
  else if uso = some "030104" then
    setTag (setTag (setTag t "amenity" "hospital") "healthcare" "hospital")
      "fixme:classify" "if it doesn\x27t allows hospitalization it should be tagged as amenity=clinic"
  else if uso = some "030301" then setTag t "amenity" "school"
  else if uso = some "030302" then setTag t "amenity" "university"
  else if uso = some "0304" then setTag t "amenity" "post_office"
  else if uso = some "0306" then setTag t "amenity" "police"
  else if uso = some "0307" then setTag t "amenity" "fire_station"
  else if uso = some "05" then setTag t "amenity" "place_of_worship"
  else if uso = some "060101" then setTag t "aeroway" "aerodrome"
  else if uso = some "060102" then setTag t "aeroway" "heliport"
  else if uso = some "060201" then
    setTag (setTag t "amenity" "bus_station") "public_transport" "station"
  else if uso = some "060202" then
    setTag (setTag t "amenity" "parking") "parking" "multi-storey"
  else if uso = some "060301" then setTag t "railway" "station"
  else if uso = some "060404" then setTag t "aerialway" "station"
  else if uso = some "0701" then setTag t "amenity" "bank"
  else if uso = some "0702" then setTag t "shop" "department_store"
  else if uso = some "0703" ∨ uso = some "0704" then setTag t "shop" "supermarket"
  else if uso = some "0801" then setTag t "building" "industrial"
  else if uso = some "0802" ∨ uso = some "080201" ∨ uso = some "080202" ∨
      uso = some "080203" ∨ uso = some "080206" then
    setTag (setTag t "building" "service") "utility" "power"
  else if uso = some "0804" then setTag t "man_made" "wastewater_plant"
  else if uso = some "0806" then setTag (setTag t "building" "service") "utility" "telecom"
  else if uso = some "0901" then setTag t "building" "house"
  else if uso = some "0902" ∨ uso = some "0903" ∨ uso = some "0904" then
    setTag t "building" "farm_auxiliary"
  else if uso = some "1001" then setTag t "building" "public"
  else if uso = some "100101" then setTag t "amenity" "library"
  else if uso = some "100102" then setTag t "amenity" "cinema"
  else if uso = some "100103" then setTag t "amenity" "theatre"
  else if uso = some "100104" then setTag t "tourism" "museum"
  else if uso = some "1002" then setTag t "building" "sports_centre"
  else if uso = some "100201" then setTag (setTag t "leisure" "swimming_pool") "indoor" "yes"
  else if uso = some "100202" then setTag t "leisure" "sports_hall"
  else if uso = some "11" then setTag t "amenity" "prison"
  else if uso = some "1201" ∨ uso = some "1202" then setTag t "building" "hotel"
  else if uso = some "1203" then setTag t "tourism" "camp_site"
  else if uso = some "1204" then setTag t "tourism" "alpine_hut"
  else t

/-- Lines 200-202: the geometry-flag annotator, `match attrs["check_geom"]`. -/
def step_geom (cg : Option String) (t : Tags) : Tags :=
  if cg = some "01" then
    setTag t "fixme:geometry" "check if the building is cut on regional border"
  else t

/-- Lines 204-219: the status overlay, `match attrs["edifc_stat"]`.  The
`"01"` branch reads `tags["building"]` (KeyError when absent, as in
Python), wraps a non-generic value under `construction`, then overwrites
`building` and adds a fix-up; `"02"` adds a ruin marker and a fix-up; the
commented-out `"91"` branch and every other code are a no-op. -/
def step_stat (st : Option String) (t : Tags) : Except PyErr Tags :=
  if st = some "01" then
    match getTag t "building" with
    | none => Except.error (PyErr.keyError "building")
    | some b =>
        Except.ok (setTag (setTag (if b ≠ "yes" then setTag t "construction" b else t)
          "building" "construction") "fixme:building" "resurvey construction type and status")
  else if st = some "02" then
    Except.ok (setTag (setTag t "ruins" "yes") "fixme:building" "resurvey status")
  else Except.ok t

/-- `EdifTranslation.filter_tags` (lines 59-221).  `if not attrs: return`
covers both a missing dict and an empty dict; then the five stages run in
source order, each field being read from the record just before its stage. -/
def filter_tags (attrs : Option Attrs) : Except PyErr (Option Tags) :=
  match attrs with
  | none => Except.ok none
  | some a =>
    if a.isEmpty then Except.ok none else
    match lookupAttr a "edifc_nome" with
    | Except.error e => Except.error e
    | Except.ok nome =>
      match step_name nome [] with
      | Except.error e => Except.error e
      | Except.ok t1 =>
        match lookupAttr a "edifc_sot" with
        | Except.error e => Except.error e
        | Except.ok sot =>
          let t2 := step_sot sot t1
          match lookupAttr a "edifc_ty" with
          | Except.error e => Except.error e
          | Except.ok ty =>
            let t3 := step_ty ty t2
            match lookupAttr a "edifc_uso" with
            | Except.error e => Except.error e
            | Except.ok uso =>
              let t4 := step_uso uso t3
              match lookupAttr a "check_geom" with
              | Except.error e => Except.error e
              | Except.ok cg =>
                let t5 := step_geom cg t4
                match lookupAttr a "edifc_stat" with
                | Except.error e => Except.error e
                | Except.ok st =>
                  match step_stat st t5 with
                  | Except.error e => Except.error e
                  | Except.ok t => Except.ok (some t)

/-- A full-schema attribute record, one entry per field that
`filter_tags` reads. -/
def mkAttrs (nome sot ty uso cg st : Option String) : Attrs :=
  [("edifc_nome", nome), ("edifc_sot", sot), ("edifc_ty", ty),
   ("edifc_uso", uso), ("check_geom", cg), ("edifc_stat", st)]

/-- The name normalizer output on the empty accumulator, for a string
(non-null) name field. -/
def nameTags (s : String) : Tags :=
  if pyLower s ≠ "unk" then setTag [] "name" s else setTag [] "name" ""

/-- The accumulator after the first four tag-writing stages, before the
status overlay. -/
def preStatus (s : String) (sot ty uso cg : Option String) : Tags :=
  step_geom cg (step_uso uso (step_ty ty (step_sot sot (nameTags s))))

/-- The building-type value assigned by the use classifier for a given use
code, read off from the classifier itself on an empty accumulator. -/
def usoBuilding (uso : Option String) : Option String :=
  getTag (step_uso uso []) "building"

/-- The type codes with their own case in the structural classifier. -/
def knownTyCodes : List String :=
  ["04", "07", "10", "11", "14", "16", "19", "21", "22", "23", "24", "25"]

/-! Dict update/lookup laws. -/

theorem getTag_setTag_self (t : Tags) (k v : String) : getTag (setTag t k v) k = some v := by
  induction t with
  | nil => simp [setTag, getTag]
  | cons p rest ih =>
    obtain ⟨a, b⟩ := p
    by_cases h : a = k <;> simp [setTag, getTag, h, ih]

theorem getTag_setTag_ne (t : Tags) {k k' : String} (h : ¬ k' = k) (v : String) :
    getTag (setTag t k v) k' = getTag t k' := by
  induction t with
  | nil => simp [setTag, getTag, Ne.symm h]
  | cons p rest ih =>
    obtain ⟨a, b⟩ := p
    by_cases ha : a = k
    · subst ha
      simp [setTag, getTag, Ne.symm h]
    · by_cases hk : a = k' <;> simp [setTag, getTag, ha, hk, h, ih]

theorem getTag_setTag_isSome (t : Tags) (k k' v : String) (h : getTag t k' ≠ none) :
    getTag (setTag t k v) k' ≠ none := by
  by_cases hk : k' = k
  · subst hk; simp [getTag_setTag_self]
  · rw [getTag_setTag_ne t hk]; exact h

/-! Frame lemmas: each stage only writes its own keys. -/

theorem step_sot_frame (sot : Option String) (t : Tags) (k : String)
    (h1 : ¬ k = "location") (h2 : ¬ k = "building:levels") (h3 : ¬ k = "fixme:buildind") :
    getTag (step_sot sot t) k = getTag t k := by
  unfold step_sot
  repeat' split
  all_goals simp [getTag_setTag_ne, h1, h2, h3]

theorem step_ty_frame (ty : Option String) (t : Tags) (k : String)
    (h1 : ¬ k = "building") (h2 : ¬ k = "man_made") (h3 : ¬ k = "tower:type")
    (h4 : ¬ k = "layer") (h5 : ¬ k = "defensive_works") (h6 : ¬ k = "historic") :
    getTag (step_ty ty t) k = getTag t k := by
  unfold step_ty
  by_cases e1 : ty = some "04"
  · simp [e1, getTag_setTag_ne, h1, h2, h3, h4, h5, h6]
  by_cases e2 : ty = some "07"
  · simp [e2, getTag_setTag_ne, h1, h2, h3, h4, h5, h6]
  by_cases e3 : ty = some "10"
  · simp [e3, getTag_setTag_ne, h1, h2, h3, h4, h5, h6]
  by_cases e4 : ty = some "11"
  · simp [e4, getTag_setTag_ne, h1, h2, h3, h4, h5, h6]
  by_cases e5 : ty = some "14"
  · simp [e5, getTag_setTag_ne, h1, h2, h3, h4, h5, h6]
  by_cases e6 : ty = some "16"
  · simp [e6, getTag_setTag_ne, h1, h2, h3, h4, h5, h6]
  by_cases e7 : ty = some "19"
  · simp [e7, getTag_setTag_ne, h1, h2, h3, h4, h5, h6]
  by_cases e8 : ty = some "21"
  · simp [e8, getTag_setTag_ne, h1, h2, h3, h4, h5, h6]
  by_cases e9 : ty = some "22"
  · simp [e9, getTag_setTag_ne, h1, h2, h3, h4, h5, h6]
  by_cases e10 : ty = some "23"
  · simp [e10, getTag_setTag_ne, h1, h2, h3, h4, h5, h6]
  by_cases e11 : ty = some "24"
  · simp [e11, getTag_setTag_ne, h1, h2, h3, h4, h5, h6]
  by_cases e12 : ty = some "25"
  · simp [e12, getTag_setTag_ne, h1, h2, h3, h4, h5, h6]
  simp [e1, e2, e3, e4, e5, e6, e7, e8, e9, e10, e11, e12, getTag_setTag_ne, h1, h2, h3, h4, h5, h6]

theorem step_uso_frame (uso : Option String) (t : Tags) (k : String)
    (h1 : ¬ k = "building") (h2 : ¬ k = "amenity") (h3 : ¬ k = "office")
    (h4 : ¬ k = "admin_level") (h5 : ¬ k = "healthcare") (h6 : ¬ k = "fixme:classify")
    (h7 : ¬ k = "aeroway") (h8 : ¬ k = "public_transport") (h9 : ¬ k = "parking")
    (h10 : ¬ k = "railway") (h11 : ¬ k = "aerialway") (h12 : ¬ k = "shop")
    (h13 : ¬ k = "utility") (h14 : ¬ k = "man_made") (h15 : ¬ k = "leisure")
    (h16 : ¬ k = "indoor") (h17 : ¬ k = "tourism") :
    getTag (step_uso uso t) k = getTag t k := by
  unfold step_uso
  by_cases e1 : uso = some "02"
  · simp [e1, getTag_setTag_ne, h1, h2, h3, h4, h5, h6, h7, h8, h9, h10, h11, h12, h13, h14, h15, h16, h17]
  by_cases e2 : uso = some "0201"
  · simp [e2, getTag_setTag_ne, h1, h2, h3, h4, h5, h6, h7, h8, h9, h10, h11, h12, h13, h14, h15, h16, h17]
  by_cases e3 : uso = some "0203"
  · simp [e3, getTag_setTag_ne, h1, h2, h3, h4, h5, h6, h7, h8, h9, h10, h11, h12, h13, h14, h15, h16, h17]
  by_cases e4 : uso = some "030101"
  · simp [e4, getTag_setTag_ne, h1, h2, h3, h4, h5, h6, h7, h8, h9, h10, h11, h12, h13, h14, h15, h16, h17]
  by_cases e5 : uso = some "030102"
  · simp [e5, getTag_setTag_ne, h1, h2, h3, h4, h5, h6, h7, h8, h9, h10, h11, h12, h13, h14, h15, h16, h17]
  by_cases e6 : uso = some "030103"
  · simp [e6, getTag_setTag_ne, h1, h2, h3, h4, h5, h6, h7, h8, h9, h10, h11, h12, h13, h14, h15, h16, h17]
  by_cases e7 : uso = some "030104"
  · simp [e7, getTag_setTag_ne, h1, h2, h3, h4, h5, h6, h7, h8, h9, h10, h11, h12, h13, h14, h15, h16, h17]
  by_cases e8 : uso = some "030301"
  · simp [e8, getTag_setTag_ne, h1, h2, h3, h4, h5, h6, h7, h8, h9, h10, h11, h12, h13, h14, h15, h16, h17]
  by_cases e9 : uso = some "030302"
  · simp [e9, getTag_setTag_ne, h1, h2, h3, h4, h5, h6, h7, h8, h9, h10, h11, h12, h13, h14, h15, h16, h17]
  by_cases e10 : uso = some "0304"
  · simp [e10, getTag_setTag_ne, h1, h2, h3, h4, h5, h6, h7, h8, h9, h10, h11, h12, h13, h14, h15, h16, h17]
  by_cases e11 : uso = some "0306"
  · simp [e11, getTag_setTag_ne, h1, h2, h3, h4, h5, h6, h7, h8, h9, h10, h11, h12, h13, h14, h15, h16, h17]
  by_cases e12 : uso = some "0307"
  · simp [e12, getTag_setTag_ne, h1, h2, h3, h4, h5, h6, h7, h8, h9, h10, h11, h12, h13, h14, h15, h16, h17]
  by_cases e13 : uso = some "05"
  · simp [e13, getTag_setTag_ne, h1, h2, h3, h4, h5, h6, h7, h8, h9, h10, h11, h12, h13, h14, h15, h16, h17]
  by_cases e14 : uso = some "060101"
  · simp [e14, getTag_setTag_ne, h1, h2, h3, h4, h5, h6, h7, h8, h9, h10, h11, h12, h13, h14, h15, h16, h17]
  by_cases e15 : uso = some "060102"
  · simp [e15, getTag_setTag_ne, h1, h2, h3, h4, h5, h6, h7, h8, h9, h10, h11, h12, h13, h14, h15, h16, h17]
  by_cases e16 : uso = some "060201"
  · simp [e16, getTag_setTag_ne, h1, h2, h3, h4, h5, h6, h7, h8, h9, h10, h11, h12, h13, h14, h15, h16, h17]
  by_cases e17 : uso = some "060202"
  · simp [e17, getTag_setTag_ne, h1, h2, h3, h4, h5, h6, h7, h8, h9, h10, h11, h12, h13, h14, h15, h16, h17]
  by_cases e18 : uso = some "060301"
  · simp [e18, getTag_setTag_ne, h1, h2, h3, h4, h5, h6, h7, h8, h9, h10, h11, h12, h13, h14, h15, h16, h17]
  by_cases e19 : uso = some "060404"
  · simp [e19, getTag_setTag_ne, h1, h2, h3, h4, h5, h6, h7, h8, h9, h10, h11, h12, h13, h14, h15, h16, h17]
  by_cases e20 : uso = some "0701"
  · simp [e20, getTag_setTag_ne, h1, h2, h3, h4, h5, h6, h7, h8, h9, h10, h11, h12, h13, h14, h15, h16, h17]
  by_cases e21 : uso = some "0702"
  · simp [e21, getTag_setTag_ne, h1, h2, h3, h4, h5, h6, h7, h8, h9, h10, h11, h12, h13, h14, h15, h16, h17]
  by_cases e22 : uso = some "0703" ∨ uso = some "0704"
  · rcases e22 with e | e <;> simp [e, getTag_setTag_ne, h1, h2, h3, h4, h5, h6, h7, h8, h9, h10, h11, h12, h13, h14, h15, h16, h17]
  by_cases e23 : uso = some "0801"
  · simp [e23, getTag_setTag_ne, h1, h2, h3, h4, h5, h6, h7, h8, h9, h10, h11, h12, h13, h14, h15, h16, h17]
  by_cases e24 : uso = some "0802" ∨ uso = some "080201" ∨ uso = some "080202" ∨ uso = some "080203" ∨ uso = some "080206"
  · rcases e24 with e | e | e | e | e <;> simp [e, getTag_setTag_ne, h1, h2, h3, h4, h5, h6, h7, h8, h9, h10, h11, h12, h13, h14, h15, h16, h17]
  by_cases e25 : uso = some "0804"
  · simp [e25, getTag_setTag_ne, h1, h2, h3, h4, h5, h6, h7, h8, h9, h10, h11, h12, h13, h14, h15, h16, h17]
  by_cases e26 : uso = some "0806"
  · simp [e26, getTag_setTag_ne, h1, h2, h3, h4, h5, h6, h7, h8, h9, h10, h11, h12, h13, h14, h15, h16, h17]
  by_cases e27 : uso = some "0901"
  · simp [e27, getTag_setTag_ne, h1, h2, h3, h4, h5, h6, h7, h8, h9, h10, h11, h12, h13, h14, h15, h16, h17]
  by_cases e28 : uso = some "0902" ∨ uso = some "0903" ∨ uso = some "0904"
  · rcases e28 with e | e | e <;> simp [e, getTag_setTag_ne, h1, h2, h3, h4, h5, h6, h7, h8, h9, h10, h11, h12, h13, h14, h15, h16, h17]
  by_cases e29 : uso = some "1001"
  · simp [e29, getTag_setTag_ne, h1, h2, h3, h4, h5, h6, h7, h8, h9, h10, h11, h12, h13, h14, h15, h16, h17]
  by_cases e30 : uso = some "100101"
  · simp [e30, getTag_setTag_ne, h1, h2, h3, h4, h5, h6, h7, h8, h9, h10, h11, h12, h13, h14, h15, h16, h17]
  by_cases e31 : uso = some "100102"
  · simp [e31, getTag_setTag_ne, h1, h2, h3, h4, h5, h6, h7, h8, h9, h10, h11, h12, h13, h14, h15, h16, h17]
  by_cases e32 : uso = some "100103"
  · simp [e32, getTag_setTag_ne, h1, h2, h3, h4, h5, h6, h7, h8, h9, h10, h11, h12, h13, h14, h15, h16, h17]
  by_cases e33 : uso = some "100104"
  · simp [e33, getTag_setTag_ne, h1, h2, h3, h4, h5, h6, h7, h8, h9, h10, h11, h12, h13, h14, h15, h16, h17]
  by_cases e34 : uso = some "1002"
  · simp [e34, getTag_setTag_ne, h1, h2, h3, h4, h5, h6, h7, h8, h9, h10, h11, h12, h13, h14, h15, h16, h17]
  by_cases e35 : uso = some "100201"
  · simp [e35, getTag_setTag_ne, h1, h2, h3, h4, h5, h6, h7, h8, h9, h10, h11, h12, h13, h14, h15, h16, h17]
  by_cases e36 : uso = some "100202"
  · simp [e36, getTag_setTag_ne, h1, h2, h3, h4, h5, h6, h7, h8, h9, h10, h11, h12, h13, h14, h15, h16, h17]
  by_cases e37 : uso = some "11"
  · simp [e37, getTag_setTag_ne, h1, h2, h3, h4, h5, h6, h7, h8, h9, h10, h11, h12, h13, h14, h15, h16, h17]
  by_cases e38 : uso = some "1201" ∨ uso = some "1202"
  · rcases e38 with e | e <;> simp [e, getTag_setTag_ne, h1, h2, h3, h4, h5, h6, h7, h8, h9, h10, h11, h12, h13, h14, h15, h16, h17]
  by_cases e39 : uso = some "1203"
  · simp [e39, getTag_setTag_ne, h1, h2, h3, h4, h5, h6, h7, h8, h9, h10, h11, h12, h13, h14, h15, h16, h17]
  by_cases e40 : uso = some "1204"
  · simp [e40, getTag_setTag_ne, h1, h2, h3, h4, h5, h6, h7, h8, h9, h10, h11, h12, h13, h14, h15, h16, h17]
  simp [e1, e2, e3, e4, e5, e6, e7, e8, e9, e10, e11, e12, e13, e14, e15, e16, e17, e18, e19, e20, e21, e22, e23, e24, e25, e26, e27, e28, e29, e30, e31, e32, e33, e34, e35, e36, e37, e38, e39, e40, getTag_setTag_ne, h1, h2, h3, h4, h5, h6, h7, h8, h9, h10, h11, h12, h13, h14, h15, h16, h17]

theorem step_geom_frame (cg : Option String) (t : Tags) (k : String)
    (h1 : ¬ k = "fixme:geometry") :
    getTag (step_geom cg t) k = getTag t k := by
  unfold step_geom
  repeat' split
  all_goals simp [getTag_setTag_ne, h1]

theorem step_stat_frame (st : Option String) (t t' : Tags) (k : String)
    (hok : step_stat st t = Except.ok t')
    (h1 : ¬ k = "building") (h2 : ¬ k = "construction") (h3 : ¬ k = "fixme:building")
    (h4 : ¬ k = "ruins") :
    getTag t' k = getTag t k := by
  unfold step_stat at hok
  split_ifs at hok
  · cases hg : getTag t "building" with
    | none => rw [hg] at hok; exact absurd hok (by simp)
    | some b =>
      rw [hg] at hok
      simp only [Except.ok.injEq] at hok
      subst hok
      split_ifs <;> simp [getTag_setTag_ne, h1, h2, h3, h4]
  · simp only [Except.ok.injEq] at hok
    subst hok
    simp [getTag_setTag_ne, h1, h3, h4]
  · simp only [Except.ok.injEq] at hok
    subst hok
    rfl

/-! Value lemmas for the individual stages. -/

theorem nameTags_name (s : String) :
    getTag (nameTags s) "name" = some (if pyLower s = "unk" then "" else s) := by
  unfold nameTags
  by_cases h : pyLower s = "unk" <;> simp [h, getTag_setTag_self]

theorem step_sot_02 (t : Tags) :
    getTag (step_sot (some "02") t) "location" = some "underground" ∧
    getTag (step_sot (some "02") t) "building:levels" = some "0" ∧
    getTag (step_sot (some "02") t) "fixme:buildind" =
      some "Check location, if not verifiable remove geometry" := by
  unfold step_sot
  simp [getTag_setTag_self, getTag_setTag_ne]

theorem step_sot_noop (sot : Option String) (t : Tags) (h : ¬ sot = some "02") :
    step_sot sot t = t := by
  unfold step_sot
  simp [h]

theorem step_ty_building (ty : Option String) (t : Tags) :
    ∃ b, getTag (step_ty ty t) "building" = some b := by
  unfold step_ty
  by_cases e1 : ty = some "04"
  · simp [e1, getTag_setTag_self, getTag_setTag_ne]
  by_cases e2 : ty = some "07"
  · simp [e2, getTag_setTag_self, getTag_setTag_ne]
  by_cases e3 : ty = some "10"
  · simp [e3, getTag_setTag_self, getTag_setTag_ne]
  by_cases e4 : ty = some "11"
  · simp [e4, getTag_setTag_self, getTag_setTag_ne]
  by_cases e5 : ty = some "14"
  · simp [e5, getTag_setTag_self, getTag_setTag_ne]
  by_cases e6 : ty = some "16"
  · simp [e6, getTag_setTag_self, getTag_setTag_ne]
  by_cases e7 : ty = some "19"
  · simp [e7, getTag_setTag_self, getTag_setTag_ne]
  by_cases e8 : ty = some "21"
  · simp [e8, getTag_setTag_self, getTag_setTag_ne]
  by_cases e9 : ty = some "22"
  · simp [e9, getTag_setTag_self, getTag_setTag_ne]
  by_cases e10 : ty = some "23"
  · simp [e10, getTag_setTag_self, getTag_setTag_ne]
  by_cases e11 : ty = some "24"
  · simp [e11, getTag_setTag_self, getTag_setTag_ne]
  by_cases e12 : ty = some "25"
  · simp [e12, getTag_setTag_self, getTag_setTag_ne]
  simp [e1, e2, e3, e4, e5, e6, e7, e8, e9, e10, e11, e12, getTag_setTag_self]

theorem step_ty_default (ty : Option String) (t : Tags)
    (h : ∀ c ∈ knownTyCodes, ¬ ty = some c) :
    step_ty ty t = setTag t "building" "yes" := by
  unfold step_ty
  simp [h "04" (by simp [knownTyCodes]), h "07" (by simp [knownTyCodes]),
    h "10" (by simp [knownTyCodes]), h "11" (by simp [knownTyCodes]),
    h "14" (by simp [knownTyCodes]), h "16" (by simp [knownTyCodes]),
    h "19" (by simp [knownTyCodes]), h "21" (by simp [knownTyCodes]),
    h "22" (by simp [knownTyCodes]), h "23" (by simp [knownTyCodes]),
    h "24" (by simp [knownTyCodes]), h "25" (by simp [knownTyCodes])]

theorem step_geom_noop (cg : Option String) (t : Tags) (h : ¬ cg = some "01") :
    step_geom cg t = t := by
  unfold step_geom
  simp [h]

theorem step_stat_noop (st : Option String) (t : Tags)
    (h1 : ¬ st = some "01") (h2 : ¬ st = some "02") :
    step_stat st t = Except.ok t := by
  unfold step_stat
  simp [h1, h2]

theorem step_stat_ruins (t : Tags) :
    step_stat (some "02") t =
      Except.ok (setTag (setTag t "ruins" "yes") "fixme:building" "resurvey status") := by
  unfold step_stat
  simp

theorem step_stat_constr (t : Tags) (b : String) (hb : getTag t "building" = some b) :
    step_stat (some "01") t =
      Except.ok (setTag (setTag (if b ≠ "yes" then setTag t "construction" b else t)
        "building" "construction") "fixme:building" "resurvey construction type and status") := by
  unfold step_stat
  simp [hb]

theorem step_stat_total (st : Option String) (t : Tags) (hb : getTag t "building" ≠ none) :
    ∃ t', step_stat st t = Except.ok t' := by
  unfold step_stat
  by_cases h1 : st = some "01"
  · cases hg : getTag t "building" with
    | none => exact absurd hg hb
    | some b => simp [h1, hg]
  · by_cases h2 : st = some "02" <;> simp [h1, h2]

theorem step_stat_building_ne01 (st : Option String) (t t' : Tags)
    (hok : step_stat st t = Except.ok t') (h1 : ¬ st = some "01") :
    getTag t' "building" = getTag t "building" := by
  unfold step_stat at hok
  rw [if_neg h1] at hok
  by_cases h2 : st = some "02"
  · rw [if_pos h2] at hok
    simp only [Except.ok.injEq] at hok
    subst hok
    simp [getTag_setTag_ne]
  · rw [if_neg h2] at hok
    simp only [Except.ok.injEq] at hok
    subst hok
    rfl

/-- Master lemma for the use classifier and the building tag: on any
accumulator the final building tag is the override recorded by
`usoBuilding`, or the incoming one when the use code sets none. -/
theorem step_uso_building (uso : Option String) (t : Tags) :
    getTag (step_uso uso t) "building" =
      match usoBuilding uso with
      | some b => some b
      | none => getTag t "building" := by
  by_cases e1 : uso = some "02"
  · simp [e1, usoBuilding, step_uso, setTag, getTag, getTag_setTag_self, getTag_setTag_ne]
  by_cases e2 : uso = some "0201"
  · simp [e2, usoBuilding, step_uso, setTag, getTag, getTag_setTag_self, getTag_setTag_ne]
  by_cases e3 : uso = some "0203"
  · simp [e3, usoBuilding, step_uso, setTag, getTag, getTag_setTag_self, getTag_setTag_ne]
  by_cases e4 : uso = some "030101"
  · simp [e4, usoBuilding, step_uso, setTag, getTag, getTag_setTag_self, getTag_setTag_ne]
  by_cases e5 : uso = some "030102"
  · simp [e5, usoBuilding, step_uso, setTag, getTag, getTag_setTag_self, getTag_setTag_ne]
  by_cases e6 : uso = some "030103"
  · simp [e6, usoBuilding, step_uso, setTag, getTag, getTag_setTag_self, getTag_setTag_ne]
  by_cases e7 : uso = some "030104"
  · simp [e7, usoBuilding, step_uso, setTag, getTag, getTag_setTag_self, getTag_setTag_ne]
  by_cases e8 : uso = some "030301"
  · simp [e8, usoBuilding, step_uso, setTag, getTag, getTag_setTag_self, getTag_setTag_ne]
  by_cases e9 : uso = some "030302"
  · simp [e9, usoBuilding, step_uso, setTag, getTag, getTag_setTag_self, getTag_setTag_ne]
  by_cases e10 : uso = some "0304"
  · simp [e10, usoBuilding, step_uso, setTag, getTag, getTag_setTag_self, getTag_setTag_ne]
  by_cases e11 : uso = some "0306"
  · simp [e11, usoBuilding, step_uso, setTag, getTag, getTag_setTag_self, getTag_setTag_ne]
  by_cases e12 : uso = some "0307"
  · simp [e12, usoBuilding, step_uso, setTag, getTag, getTag_setTag_self, getTag_setTag_ne]
  by_cases e13 : uso = some "05"
  · simp [e13, usoBuilding, step_uso, setTag, getTag, getTag_setTag_self, getTag_setTag_ne]
  by_cases e14 : uso = some "060101"
  · simp [e14, usoBuilding, step_uso, setTag, getTag, getTag_setTag_self, getTag_setTag_ne]
  by_cases e15 : uso = some "060102"
  · simp [e15, usoBuilding, step_uso, setTag, getTag, getTag_setTag_self, getTag_setTag_ne]
  by_cases e16 : uso = some "060201"
  · simp [e16, usoBuilding, step_uso, setTag, getTag, getTag_setTag_self, getTag_setTag_ne]
  by_cases e17 : uso = some "060202"
  · simp [e17, usoBuilding, step_uso, setTag, getTag, getTag_setTag_self, getTag_setTag_ne]
  by_cases e18 : uso = some "060301"
  · simp [e18, usoBuilding, step_uso, setTag, getTag, getTag_setTag_self, getTag_setTag_ne]
  by_cases e19 : uso = some "060404"
  · simp [e19, usoBuilding, step_uso, setTag, getTag, getTag_setTag_self, getTag_setTag_ne]
  by_cases e20 : uso = some "0701"
  · simp [e20, usoBuilding, step_uso, setTag, getTag, getTag_setTag_self, getTag_setTag_ne]
  by_cases e21 : uso = some "0702"
  · simp [e21, usoBuilding, step_uso, setTag, getTag, getTag_setTag_self, getTag_setTag_ne]
  by_cases e22 : uso = some "0703" ∨ uso = some "0704"
  · rcases e22 with e | e <;> simp [e, usoBuilding, step_uso, setTag, getTag, getTag_setTag_self, getTag_setTag_ne]
  by_cases e23 : uso = some "0801"
  · simp [e23, usoBuilding, step_uso, setTag, getTag, getTag_setTag_self, getTag_setTag_ne]
  by_cases e24 : uso = some "0802" ∨ uso = some "080201" ∨ uso = some "080202" ∨ uso = some "080203" ∨ uso = some "080206"
  · rcases e24 with e | e | e | e | e <;> simp [e, usoBuilding, step_uso, setTag, getTag, getTag_setTag_self, getTag_setTag_ne]
  by_cases e25 : uso = some "0804"
  · simp [e25, usoBuilding, step_uso, setTag, getTag, getTag_setTag_self, getTag_setTag_ne]
  by_cases e26 : uso = some "0806"
  · simp [e26, usoBuilding, step_uso, setTag, getTag, getTag_setTag_self, getTag_setTag_ne]
  by_cases e27 : uso = some "0901"
  · simp [e27, usoBuilding, step_uso, setTag, getTag, getTag_setTag_self, getTag_setTag_ne]
  by_cases e28 : uso = some "0902" ∨ uso = some "0903" ∨ uso = some "0904"
  · rcases e28 with e | e | e <;> simp [e, usoBuilding, step_uso, setTag, getTag, getTag_setTag_self, getTag_setTag_ne]
  by_cases e29 : uso = some "1001"
  · simp [e29, usoBuilding, step_uso, setTag, getTag, getTag_setTag_self, getTag_setTag_ne]
  by_cases e30 : uso = some "100101"
  · simp [e30, usoBuilding, step_uso, setTag, getTag, getTag_setTag_self, getTag_setTag_ne]
  by_cases e31 : uso = some "100102"
  · simp [e31, usoBuilding, step_uso, setTag, getTag, getTag_setTag_self, getTag_setTag_ne]
  by_cases e32 : uso = some "100103"
  · simp [e32, usoBuilding, step_uso, setTag, getTag, getTag_setTag_self, getTag_setTag_ne]
  by_cases e33 : uso = some "100104"
  · simp [e33, usoBuilding, step_uso, setTag, getTag, getTag_setTag_self, getTag_setTag_ne]
  by_cases e34 : uso = some "1002"
  · simp [e34, usoBuilding, step_uso, setTag, getTag, getTag_setTag_self, getTag_setTag_ne]
  by_cases e35 : uso = some "100201"
  · simp [e35, usoBuilding, step_uso, setTag, getTag, getTag_setTag_self, getTag_setTag_ne]
  by_cases e36 : uso = some "100202"
  · simp [e36, usoBuilding, step_uso, setTag, getTag, getTag_setTag_self, getTag_setTag_ne]
  by_cases e37 : uso = some "11"
  · simp [e37, usoBuilding, step_uso, setTag, getTag, getTag_setTag_self, getTag_setTag_ne]
  by_cases e38 : uso = some "1201" ∨ uso = some "1202"
  · rcases e38 with e | e <;> simp [e, usoBuilding, step_uso, setTag, getTag, getTag_setTag_self, getTag_setTag_ne]
  by_cases e39 : uso = some "1203"
  · simp [e39, usoBuilding, step_uso, setTag, getTag, getTag_setTag_self, getTag_setTag_ne]
  by_cases e40 : uso = some "1204"
  · simp [e40, usoBuilding, step_uso, setTag, getTag, getTag_setTag_self, getTag_setTag_ne]
  simp [e1, e2, e3, e4, e5, e6, e7, e8, e9, e10, e11, e12, e13, e14, e15, e16, e17, e18, e19, e20, e21, e22, e23, e24, e25, e26, e27, e28, e29, e30, e31, e32, e33, e34, e35, e36, e37, e38, e39, e40, usoBuilding, step_uso, setTag, getTag, getTag_setTag_self, getTag_setTag_ne]

/-! Bridging: `filter_tags` on a full-schema record with a string name is
the pure five-stage pipeline followed by the status overlay. -/

theorem filter_tags_mkAttrs (s : String) (sot ty uso cg st : Option String) :
    filter_tags (some (mkAttrs (some s) sot ty uso cg st)) =
      (step_stat st (preStatus s sot ty uso cg)).map some := by
  have h : filter_tags (some (mkAttrs (some s) sot ty uso cg st)) =
      match step_stat st (preStatus s sot ty uso cg) with
      | Except.error e => Except.error e
      | Except.ok t => Except.ok (some t) := rfl
  rw [h]
  cases step_stat st (preStatus s sot ty uso cg) <;> rfl

theorem filter_tags_mkAttrs_ok (s : String) (sot ty uso cg st : Option String) (t : Tags)
    (h : filter_tags (some (mkAttrs (some s) sot ty uso cg st)) = Except.ok (some t)) :
    step_stat st (preStatus s sot ty uso cg) = Except.ok t := by
  rw [filter_tags_mkAttrs] at h
  cases hst : step_stat st (preStatus s sot ty uso cg) with
  | error e => rw [hst] at h; simp [Except.map] at h
  | ok t' =>
    rw [hst] at h
    simp only [Except.map, Except.ok.injEq, Option.some.injEq] at h
    exact congrArg Except.ok h

/-! Facts about the accumulator just before the status overlay. -/

theorem preStatus_building (s : String) (sot ty uso cg : Option String) :
    getTag (preStatus s sot ty uso cg) "building" =
      match usoBuilding uso with
      | some b => some b
      | none => getTag (step_ty ty (step_sot sot (nameTags s))) "building" := by
  unfold preStatus
  rw [step_geom_frame _ _ _ (by decide)]
  exact step_uso_building uso _

theorem preStatus_building_isSome (s : String) (sot ty uso cg : Option String) :
    getTag (preStatus s sot ty uso cg) "building" ≠ none := by
  rw [preStatus_building]
  cases h : usoBuilding uso with
  | some b => simp
  | none =>
    obtain ⟨b, hb⟩ := step_ty_building ty (step_sot sot (nameTags s))
    simp [hb]

theorem preStatus_name (s : String) (sot ty uso cg : Option String) :
    getTag (preStatus s sot ty uso cg) "name" =
      some (if pyLower s = "unk" then "" else s) := by
  unfold preStatus
  rw [step_geom_frame _ _ _ (by decide),
    step_uso_frame _ _ _ (by decide) (by decide) (by decide) (by decide) (by decide)
      (by decide) (by decide) (by decide) (by decide) (by decide) (by decide) (by decide)
      (by decide) (by decide) (by decide) (by decide) (by decide),
    step_ty_frame _ _ _ (by decide) (by decide) (by decide) (by decide) (by decide) (by decide),
    step_sot_frame _ _ _ (by decide) (by decide) (by decide)]
  exact nameTags_name s

theorem step_uso_building_present (uso : Option String) (t : Tags)
    (hb : ¬ getTag t "building" = none) :
    ¬ getTag (step_uso uso t) "building" = none := by
  rw [step_uso_building]
  cases usoBuilding uso with
  | some b => simp
  | none => simpa using hb

theorem step_stat_building_present (st : Option String) (t t' : Tags)
    (hok : step_stat st t = Except.ok t') (hb : ¬ getTag t "building" = none) :
    ¬ getTag t' "building" = none := by
  by_cases h1 : st = some "01"
  · subst h1
    cases hg : getTag t "building" with
    | none => exact absurd hg hb
    | some b =>
      rw [step_stat_constr t b hg] at hok
      simp only [Except.ok.injEq] at hok
      subst hok
      simp [getTag_setTag_self, getTag_setTag_ne]
  · rw [step_stat_building_ne01 st t t' hok h1]
    exact hb

theorem step_stat_no_error (st : Option String) (t : Tags)
    (hb : ¬ getTag t "building" = none) (e : PyErr) :
    ¬ step_stat st t = Except.error e := by
  obtain ⟨t', ht⟩ := step_stat_total st t hb
  rw [ht]
  simp

theorem preStatus_underground (s : String) (ty uso cg : Option String) :
    getTag (preStatus s (some "02") ty uso cg) "location" = some "underground" ∧
    getTag (preStatus s (some "02") ty uso cg) "building:levels" = some "0" ∧
    getTag (preStatus s (some "02") ty uso cg) "fixme:buildind" =
      some "Check location, if not verifiable remove geometry" := by
  unfold preStatus
  refine ⟨?_, ?_, ?_⟩ <;>
    rw [step_geom_frame _ _ _ (by decide),
      step_uso_frame _ _ _ (by decide) (by decide) (by decide) (by decide) (by decide)
        (by decide) (by decide) (by decide) (by decide) (by decide) (by decide) (by decide)
        (by decide) (by decide) (by decide) (by decide) (by decide),
      step_ty_frame _ _ _ (by decide) (by decide) (by decide) (by decide) (by decide)
        (by decide)]
  · exact (step_sot_02 (nameTags s)).1
  · exact (step_sot_02 (nameTags s)).2.1
  · exact (step_sot_02 (nameTags s)).2.2

/-! Claim theorems. -/

/-- C1: for every full-schema record that classifies successfully, if the
use code has a table entry that sets the building tag (`usoBuilding`),
the final building tag equals the use classifier assignment whenever the
status code is not "01"; and when the status code is "01" the final
building tag is "construction" regardless of type and use codes. -/
theorem C1_use_precedence (s : String) (sot ty uso cg st : Option String) (t : Tags)
    (h : filter_tags (some (mkAttrs (some s) sot ty uso cg st)) = Except.ok (some t)) :
    (∀ b, usoBuilding uso = some b → ¬ st = some "01" → getTag t "building" = some b) ∧
    (st = some "01" → getTag t "building" = some "construction") := by
  have hok := filter_tags_mkAttrs_ok s sot ty uso cg st t h
  constructor
  · intro b hb hst
    have hpres := step_stat_building_ne01 st _ t hok hst
    rw [hpres, preStatus_building, hb]
  · intro hst
    subst hst
    cases hg : getTag (preStatus s sot ty uso cg) "building" with
    | none => exact absurd hg (preStatus_building_isSome s sot ty uso cg)
    | some b =>
      rw [step_stat_constr _ b hg] at hok
      simp only [Except.ok.injEq] at hok
      subst hok
      rw [getTag_setTag_ne _ (by decide)]
      exact getTag_setTag_self _ _ _

/-- Witness for C1 on a concrete record: type code "04" (house) with use
code "02" (office) and no status code yields building=office. -/
theorem C1_use_precedence_witness :
    getTag [("name", "casa"), ("building", "office")] "building" = some "office" :=
  (C1_use_precedence "casa" none (some "04") (some "02") none none
      [("name", "casa"), ("building", "office")] rfl).1 "office" (by decide) (by decide)

/-- C2 counterexample: a present (non-empty) record with the name field
missing makes the classifier raise KeyError, and a present full-schema
record whose name field is null makes it raise TypeError, so `filter_tags`
is not total on all present records. -/
theorem C2_partial_counterexample :
    filter_tags (some [("edifc_ty", some "04")]) =
      Except.error (PyErr.keyError "edifc_nome") ∧
    filter_tags (some (mkAttrs none none none none none none)) =
      Except.error PyErr.typeError := by
  constructor <;> rfl

/-- C2 amended: on every present record that carries all six fields and
whose name field is a (non-null) string, the classifier terminates without
error and returns a tag set; the remaining five fields may be null or hold
arbitrary values. -/
theorem C2_total_on_full_records (s : String) (sot ty uso cg st : Option String) :
    ∃ t, filter_tags (some (mkAttrs (some s) sot ty uso cg st)) = Except.ok (some t) := by
  obtain ⟨t', ht⟩ :=
    step_stat_total st (preStatus s sot ty uso cg) (preStatus_building_isSome s sot ty uso cg)
  refine ⟨t', ?_⟩
  rw [filter_tags_mkAttrs, ht]
  rfl

/-- C3: when the host supplies no attribute record (no dict, or an empty
dict, both falsy in Python), the classifier returns no tags at all. -/
theorem C3_absent_record :
    filter_tags none = Except.ok none ∧ filter_tags (some []) = Except.ok none :=
  ⟨rfl, rfl⟩

/-- C4: with status code "01", the output has building=construction and
the fix-up note, and any non-generic building value computed by the
earlier stages is preserved under the construction key; in particular the
concrete record with type code "07" and status code "01" yields
construction=tower and building=construction. -/
theorem C4_construction_wrap :
    (∀ (s : String) (sot ty uso cg : Option String) (t : Tags),
        filter_tags (some (mkAttrs (some s) sot ty uso cg (some "01"))) = Except.ok (some t) →
        getTag t "building" = some "construction" ∧
        getTag t "fixme:building" = some "resurvey construction type and status" ∧
        (∀ b, getTag (preStatus s sot ty uso cg) "building" = some b → ¬ b = "yes" →
          getTag t "construction" = some b)) ∧
    filter_tags (some (mkAttrs (some "unk") none (some "07") none none (some "01"))) =
      Except.ok (some [("name", ""), ("building", "construction"), ("man_made", "tower"),
        ("tower:type", "bell_tower"), ("construction", "tower"),
        ("fixme:building", "resurvey construction type and status")]) := by
  constructor
  · intro s sot ty uso cg t h
    have hok := filter_tags_mkAttrs_ok s sot ty uso cg (some "01") t h
    cases hg : getTag (preStatus s sot ty uso cg) "building" with
    | none => exact absurd hg (preStatus_building_isSome s sot ty uso cg)
    | some b =>
      rw [step_stat_constr _ b hg] at hok
      simp only [Except.ok.injEq] at hok
      subst hok
      refine ⟨?_, ?_, ?_⟩
      · rw [getTag_setTag_ne _ (by decide)]
        exact getTag_setTag_self _ _ _
      · exact getTag_setTag_self _ _ _
      · intro b' hb' hbne
        simp only [Option.some.injEq] at hb'
        subst hb'
        rw [getTag_setTag_ne _ (by decide), getTag_setTag_ne _ (by decide), if_pos hbne]
        exact getTag_setTag_self _ _ _
  · rfl

/-- Witness for C4: the general part applied to the concrete tower record. -/
theorem C4_construction_wrap_witness :
    getTag [("name", ""), ("building", "construction"), ("man_made", "tower"),
      ("tower:type", "bell_tower"), ("construction", "tower"),
      ("fixme:building", "resurvey construction type and status")] "construction" =
      some "tower" :=
  (C4_construction_wrap.1 "unk" none (some "07") none none
      [("name", ""), ("building", "construction"), ("man_made", "tower"),
       ("tower:type", "bell_tower"), ("construction", "tower"),
       ("fixme:building", "resurvey construction type and status")] rfl).2.2 "tower"
    (by decide) (by decide)

/-- C5 counterexample: among the twelve known type codes, exactly four
(not three) codes emit auxiliary tags beside the building assignment:
"07", "23", "24" and "25". -/
theorem C5_aux_codes_counterexample :
    (knownTyCodes.filter fun c => decide (1 < (step_ty (some c) []).length)) =
      ["07", "23", "24", "25"] ∧
    (knownTyCodes.filter fun c => decide (1 < (step_ty (some c) []).length)).length = 4 := by
  constructor <;> rfl

/-- C5 amended: the structural classifier always writes exactly one
building assignment; the twelve known codes produce the listed tag rows
(four of them, "07", "23", "24", "25", with auxiliary tags, of which "24"
and "25" pair the auxiliary tag with the generic building=yes); every
other code falls to the default and only writes building=yes. -/
theorem C5_structural_classifier :
    (knownTyCodes.map fun c => step_ty (some c) []) =
      [[("building", "house")],
       [("building", "tower"), ("man_made", "tower"), ("tower:type", "bell_tower")],
       [("building", "castle")], [("building", "church")], [("building", "hangar")],
       [("building", "temple")], [("building", "sports_hall")], [("building", "stadium")],
       [("building", "cathedral")], [("building", "roof"), ("layer", "1")],
       [("building", "yes"), ("defensive_works", "bastion")],
       [("building", "yes"), ("historic", "citywalls")]] ∧
    (∀ (ty : Option String) (t : Tags),
        (∀ c ∈ knownTyCodes, ¬ ty = some c) → step_ty ty t = setTag t "building" "yes") ∧
    (∀ (ty : Option String) (t : Tags), ∃ b, getTag (step_ty ty t) "building" = some b) := by
  refine ⟨rfl, ?_, ?_⟩
  · exact step_ty_default
  · exact step_ty_building

/-- Witness for C5: the default branch at the unknown code "99" and the
building assignment at the known code "05"-less record. -/
theorem C5_structural_classifier_witness :
    step_ty (some "99") [] = setTag [] "building" "yes" ∧
    ∃ b, getTag (step_ty (some "11") []) "building" = some b :=
  ⟨C5_structural_classifier.2.1 (some "99") [] (by decide),
   C5_structural_classifier.2.2 (some "11") []⟩

/-- C6: on every full-schema record that classifies successfully, a name
field whose Python-lowercase form is "unk" yields name="" in the output,
and any other name value is emitted verbatim under the name key. -/
theorem C6_name_normalizer (s : String) (sot ty uso cg st : Option String) (t : Tags)
    (h : filter_tags (some (mkAttrs (some s) sot ty uso cg st)) = Except.ok (some t)) :
    (pyLower s = "unk" → getTag t "name" = some "") ∧
    (¬ pyLower s = "unk" → getTag t "name" = some s) := by
  have hok := filter_tags_mkAttrs_ok s sot ty uso cg st t h
  have hname : getTag t "name" = getTag (preStatus s sot ty uso cg) "name" :=
    step_stat_frame st _ t "name" hok (by decide) (by decide) (by decide) (by decide)
  rw [preStatus_name] at hname
  constructor
  · intro hs
    rw [hname, if_pos hs]
  · intro hs
    rw [hname, if_neg hs]

/-- Witness for C6: the uppercase sentinel "UNK" empties the name. -/
theorem C6_name_normalizer_witness :
    getTag [("name", ""), ("building", "yes")] "name" = some "" :=
  (C6_name_normalizer "UNK" none none none none none
      [("name", ""), ("building", "yes")] rfl).1 (by decide)

/-- C7: a record with underground flag "02" that classifies successfully
always carries location=underground, building:levels=0 and the
fixme:buildind note, whatever the other fields; any other flag value makes
the underground annotator a no-op. -/
theorem C7_underground :
    (∀ (s : String) (ty uso cg st : Option String) (t : Tags),
        filter_tags (some (mkAttrs (some s) (some "02") ty uso cg st)) = Except.ok (some t) →
        getTag t "location" = some "underground" ∧
        getTag t "building:levels" = some "0" ∧
        getTag t "fixme:buildind" =
          some "Check location, if not verifiable remove geometry") ∧
    (∀ (sot : Option String) (t : Tags), ¬ sot = some "02" → step_sot sot t = t) := by
  constructor
  · intro s ty uso cg st t h
    have hok := filter_tags_mkAttrs_ok s (some "02") ty uso cg st t h
    refine ⟨?_, ?_, ?_⟩
    · rw [step_stat_frame st _ t "location" hok (by decide) (by decide) (by decide) (by decide)]
      exact (preStatus_underground s ty uso cg).1
    · rw [step_stat_frame st _ t "building:levels" hok (by decide) (by decide) (by decide)
        (by decide)]
      exact (preStatus_underground s ty uso cg).2.1
    · rw [step_stat_frame st _ t "fixme:buildind" hok (by decide) (by decide) (by decide)
        (by decide)]
      exact (preStatus_underground s ty uso cg).2.2
  · exact step_sot_noop

/-- Witness for C7: a concrete underground record, and the no-op branch at
flag value "03". -/
theorem C7_underground_witness :
    getTag [("name", ""), ("location", "underground"), ("building:levels", "0"),
      ("fixme:buildind", "Check location, if not verifiable remove geometry"),
      ("building", "yes")] "location" = some "underground" ∧
    step_sot (some "03") [] = [] :=
  ⟨(C7_underground.1 "unk" none none none none
      [("name", ""), ("location", "underground"), ("building:levels", "0"),
       ("fixme:buildind", "Check location, if not verifiable remove geometry"),
       ("building", "yes")] rfl).1,
   C7_underground.2 (some "03") [] (by decide)⟩

/-- C8: when the status code is neither "01" nor "02" (for instance the
deliberately skipped "91"), the status overlay changes nothing: the output
of the classifier is exactly the accumulator computed by the four earlier
stages. -/
theorem C8_status_overlay_noop (s : String) (sot ty uso cg st : Option String)
    (h1 : ¬ st = some "01") (h2 : ¬ st = some "02") :
    filter_tags (some (mkAttrs (some s) sot ty uso cg st)) =
      Except.ok (some (preStatus s sot ty uso cg)) := by
  rw [filter_tags_mkAttrs, step_stat_noop st _ h1 h2]
  rfl

/-- Witness for C8: status code "91" leaves the earlier stages' output
untouched on a concrete record. -/
theorem C8_status_overlay_noop_witness :
    filter_tags (some (mkAttrs (some "unk") none none none none (some "91"))) =
      Except.ok (some [("name", ""), ("building", "yes")]) := by
  rw [C8_status_overlay_noop "unk" none none none none (some "91") (by decide) (by decide)]
  rfl

theorem lookupAttr_error (a : Attrs) (k : String) (e : PyErr)
    (h : lookupAttr a k = Except.error e) : e = PyErr.keyError k := by
  induction a with
  | nil =>
    simp only [lookupAttr, Except.error.injEq] at h
    exact h.symm
  | cons p rest ih =>
    obtain ⟨k', v⟩ := p
    by_cases hk : k' = k
    · simp [lookupAttr, hk] at h
    · simp only [lookupAttr, if_neg hk] at h
      exact ih h

/-- C9: every successful classification carries both a name tag and a
building tag, and the status overlay's read of the building tag can never
raise: `filter_tags` never returns KeyError for "building" on any input. -/
theorem C9_name_building_invariant :
    (∀ (attrs : Option Attrs) (t : Tags), filter_tags attrs = Except.ok (some t) →
        ¬ getTag t "name" = none ∧ ¬ getTag t "building" = none) ∧
    (∀ attrs : Option Attrs, ¬ filter_tags attrs = Except.error (PyErr.keyError "building")) := by
  constructor
  · intro attrs t h
    cases attrs with
    | none => simp [filter_tags] at h
    | some a =>
      simp only [filter_tags] at h
      split at h
      · simp at h
      split at h
      · simp at h
      rename_i nome hnome
      split at h
      · simp at h
      rename_i t1 ht1
      split at h
      · simp at h
      rename_i sot hsot
      split at h
      · simp at h
      rename_i ty hty
      split at h
      · simp at h
      rename_i uso huso
      split at h
      · simp at h
      rename_i cg hcg
      split at h
      · simp at h
      rename_i st hst
      split at h
      · simp at h
      rename_i tf htf
      simp only [Except.ok.injEq, Option.some.injEq] at h
      subst h
      have hn1 : ¬ getTag t1 "name" = none := by
        cases nome with
        | none => simp [step_name] at ht1
        | some s =>
          simp only [step_name, Except.ok.injEq] at ht1
          subst ht1
          by_cases hs : pyLower s = "unk" <;> simp [hs, getTag_setTag_self]
      constructor
      · rw [step_stat_frame st _ tf "name" htf (by decide) (by decide) (by decide) (by decide),
          step_geom_frame _ _ _ (by decide),
          step_uso_frame _ _ _ (by decide) (by decide) (by decide) (by decide) (by decide)
            (by decide) (by decide) (by decide) (by decide) (by decide) (by decide) (by decide)
            (by decide) (by decide) (by decide) (by decide) (by decide),
          step_ty_frame _ _ _ (by decide) (by decide) (by decide) (by decide) (by decide)
            (by decide),
          step_sot_frame _ _ _ (by decide) (by decide) (by decide)]
        exact hn1
      · refine step_stat_building_present st _ tf htf ?_
        rw [step_geom_frame _ _ _ (by decide)]
        refine step_uso_building_present uso _ ?_
        obtain ⟨b, hb⟩ := step_ty_building ty (step_sot sot t1)
        simp [hb]
  · intro attrs h
    cases attrs with
    | none => simp [filter_tags] at h
    | some a =>
      simp only [filter_tags] at h
      split at h
      · simp at h
      split at h
      case _ e he =>
        rw [lookupAttr_error a _ e he] at h
        simp at h
      rename_i nome hnome
      split at h
      case _ e he =>
        cases nome with
        | none =>
          simp only [step_name, Except.error.injEq] at he
          subst he
          simp at h
        | some s => simp [step_name] at he
      rename_i t1 ht1
      split at h
      case _ e he =>
        rw [lookupAttr_error a _ e he] at h
        simp at h
      rename_i sot hsot
      split at h
      case _ e he =>
        rw [lookupAttr_error a _ e he] at h
        simp at h
      rename_i ty hty
      split at h
      case _ e he =>
        rw [lookupAttr_error a _ e he] at h
        simp at h
      rename_i uso huso
      split at h
      case _ e he =>
        rw [lookupAttr_error a _ e he] at h
        simp at h
      rename_i cg hcg
      split at h
      case _ e he =>
        rw [lookupAttr_error a _ e he] at h
        simp at h
      rename_i st hst
      split at h
      case _ e he =>
        refine absurd he (step_stat_no_error st _ ?_ e)
        rw [step_geom_frame _ _ _ (by decide)]
        refine step_uso_building_present uso _ ?_
        obtain ⟨b, hb⟩ := step_ty_building ty (step_sot sot t1)
        simp [hb]
      rename_i tf htf
      simp at h

/-- Witness for C9: a successful concrete record, and the no-KeyError
conclusion on a record with a missing name field. -/
theorem C9_name_building_invariant_witness :
    ¬ getTag [("name", "casa"), ("building", "yes")] "name" = none ∧
    ¬ filter_tags (some [("edifc_ty", some "04")]) =
        Except.error (PyErr.keyError "building") :=
  ⟨(C9_name_building_invariant.1 (some (mkAttrs (some "casa") none none none none none))
      [("name", "casa"), ("building", "yes")] rfl).1,
   C9_name_building_invariant.2 (some [("edifc_ty", some "04")])⟩

/-- C10: the underground fix-up key "fixme:buildind" (with the source's
typo) differs from the status fix-up key "fixme:building", so a record with
underground flag "02" and status code "01" or "02" carries both notes in
its output, neither overwriting the other. -/
theorem C10_fixme_keys :
    ¬ ("fixme:buildind" : String) = "fixme:building" ∧
    (∀ (s : String) (ty uso cg : Option String) (t : Tags),
        filter_tags (some (mkAttrs (some s) (some "02") ty uso cg (some "01"))) =
          Except.ok (some t) →
        getTag t "fixme:buildind" = some "Check location, if not verifiable remove geometry" ∧
        getTag t "fixme:building" = some "resurvey construction type and status") ∧
    (∀ (s : String) (ty uso cg : Option String) (t : Tags),
        filter_tags (some (mkAttrs (some s) (some "02") ty uso cg (some "02"))) =
          Except.ok (some t) →
        getTag t "fixme:buildind" = some "Check location, if not verifiable remove geometry" ∧
        getTag t "fixme:building" = some "resurvey status") := by
  refine ⟨by decide, ?_, ?_⟩
  · intro s ty uso cg t h
    have hok := filter_tags_mkAttrs_ok s (some "02") ty uso cg (some "01") t h
    cases hg : getTag (preStatus s (some "02") ty uso cg) "building" with
    | none => exact absurd hg (preStatus_building_isSome s (some "02") ty uso cg)
    | some b =>
      rw [step_stat_constr _ b hg] at hok
      simp only [Except.ok.injEq] at hok
      subst hok
      constructor
      · rw [getTag_setTag_ne _ (by decide), getTag_setTag_ne _ (by decide)]
        by_cases hby : b = "yes"
        · rw [if_neg (not_not_intro hby)]
          exact (preStatus_underground s ty uso cg).2.2
        · rw [if_pos hby, getTag_setTag_ne _ (by decide)]
          exact (preStatus_underground s ty uso cg).2.2
      · exact getTag_setTag_self _ _ _
  · intro s ty uso cg t h
    have hok := filter_tags_mkAttrs_ok s (some "02") ty uso cg (some "02") t h
    rw [step_stat_ruins] at hok
    simp only [Except.ok.injEq] at hok
    subst hok
    constructor
    · rw [getTag_setTag_ne _ (by decide), getTag_setTag_ne _ (by decide)]
      exact (preStatus_underground s ty uso cg).2.2
    · exact getTag_setTag_self _ _ _

/-- Witness for C10: an underground record under construction carries both
fix-up notes. -/
theorem C10_fixme_keys_witness :
    getTag [("name", ""), ("location", "underground"), ("building:levels", "0"),
      ("fixme:buildind", "Check location, if not verifiable remove geometry"),
      ("building", "construction"),
      ("fixme:building", "resurvey construction type and status")] "fixme:buildind" =
      some "Check location, if not verifiable remove geometry" ∧
    getTag [("name", ""), ("location", "underground"), ("building:levels", "0"),
      ("fixme:buildind", "Check location, if not verifiable remove geometry"),
      ("building", "construction"),
      ("fixme:building", "resurvey construction type and status")] "fixme:building" =
      some "resurvey construction type and status" :=
  C10_fixme_keys.2.1 "unk" none none none
    [("name", ""), ("location", "underground"), ("building:levels", "0"),
     ("fixme:buildind", "Check location, if not verifiable remove geometry"),
     ("building", "construction"),
     ("fixme:building", "resurvey construction type and status")] rfl
